import Mathlib

/-!
Verification development for the CS325Project1 job-matching pipeline.

The pipeline acquires job listings (Stage1DataAcquisition.py), cleans them
(Stage2), embeds job texts and the resume through an external embedding
service (Stage3OpenAIEmbedding.py), and ranks jobs by cosine similarity to
the resume embedding (Stage4Similarity.py), all sequenced by an orchestrator
(main.py).  Below, each Python function relevant to the stated claims is
shallowly embedded as a Lean definition: floating point numbers are modelled
as real numbers (Stage 4 mathematics) or rationals (Stage 3 data plumbing),
exceptions as Except values, file writes as an explicit list of written
files, and the external HTTP services as function parameters.
-/

/- ===================================================================
   Definitions: Stage 4 similarity (src/Stage4Similarity.py)
   =================================================================== -/

/-- Sum of squares of the entries of a vector.  The square of the Euclidean
norm computed by np.linalg.norm in safe_cosine_similarity. -/
def sumSq (a : List ℝ) : ℝ := (a.map fun x => x * x).sum

/-- Dot product of two vectors (np.dot in safe_cosine_similarity).  Vectors
of unequal length are truncated to the common length by zip; np.dot raises
on mismatched 1-D shapes, so the function is only ever observed on
equal-length vectors. -/
def dotProd (a b : List ℝ) : ℝ := ((a.zip b).map fun p => p.1 * p.2).sum

/-- Euclidean norm (np.linalg.norm): square root of the sum of squares. -/
noncomputable def euclidNorm (a : List ℝ) : ℝ := Real.sqrt (sumSq a)

/-- Shallow embedding of safe_cosine_similarity
(src/Stage4Similarity.py, lines 66-82): if either norm is exactly zero the
result is 0; otherwise the normalized dot product, clipped into [-1, 1] by
max(min(cos, 1.0), -1.0).  The math.isnan guard of line 80 has no analogue
over the real numbers (an exact real value is never NaN), so the branch
disappears in this embedding. -/
noncomputable def safe_cosine_similarity (a b : List ℝ) : ℝ :=
  let norm_a := euclidNorm a
  let norm_b := euclidNorm b
  if norm_a = 0 ∨ norm_b = 0 then 0
  else
    let cos := dotProd a b / (norm_a * norm_b)
    max (min cos 1) (-1)

/- ===================================================================
   Definitions: Stage 4 loading and ranking (src/Stage4Similarity.py)
   =================================================================== -/

/-- The meta object attached to a jobs-embeddings record, with every field
consulted by rank_jobs (including the alternate keys of the fallback
chains on lines 100-102).  A missing JSON key is modelled as none. -/
structure Meta4 where
  title : Option String
  job_title : Option String
  companyName : Option String
  company : Option String
  location : Option String
  location_normalized : Option String
  location_raw : Option String
deriving DecidableEq, Repr

/-- The all-absent meta object (the JSON object with none of the display
keys). -/
def emptyMeta4 : Meta4 :=
  { title := none, job_title := none, companyName := none, company := none,
    location := none, location_normalized := none, location_raw := none }

/-- One parsed object of jobs_embeddings.jsonl: job_key, meta, embedding.
The embedding field is optional because load_jobs_embeddings checks its
presence; meta defaults to the empty object (rec.get("meta") or {}). -/
structure EmbRec where
  job_key : Option String
  meta : Meta4
  embedding : Option (List ℝ)

/-- One raw line of the jobs JSONL file as seen by load_jobs_embeddings:
blank (only whitespace), not valid JSON (json.loads raises), or a parsed
object. -/
inductive RawLine where
  | blank : RawLine
  | malformed : RawLine
  | obj : EmbRec → RawLine

/-- Shallow embedding of load_jobs_embeddings
(src/Stage4Similarity.py, lines 37-51): blank lines are skipped, a JSON
parse failure raises (propagates as an error), and a parsed object lacking
the embedding field raises ValueError; otherwise the record is appended. -/
def load_jobs_embeddings : List RawLine → Except String (List EmbRec)
  | [] => Except.ok []
  | RawLine.blank :: rest => load_jobs_embeddings rest
  | RawLine.malformed :: _ => Except.error "json.loads failed"
  | RawLine.obj o :: rest =>
    if o.embedding.isNone then
      Except.error "Each jobs JSONL line must contain an embedding field."
    else (load_jobs_embeddings rest).map fun rs => o :: rs

/-- A raw line is one the loader cannot absorb: unparsable JSON, or a parsed
object with no embedding field. -/
def badLine : RawLine → Bool
  | RawLine.blank => false
  | RawLine.malformed => true
  | RawLine.obj o => o.embedding.isNone

/-- Python truthiness-based or for optional strings: a or b is a when a is a
nonempty string, otherwise b. -/
def py_or (a b : Option String) : Option String :=
  match a with
  | some s => if s.isEmpty then b else some s
  | none => b

/-- One entry of the results list built by rank_jobs (lines 103-110). -/
structure Result4 where
  job_key : Option String
  title : Option String
  company : Option String
  location : Option String
  similarity : ℝ
  meta : Meta4

/-- The scored results list of rank_jobs (lines 92-110): one Result4 per
record, with the display-field fallback chains of lines 100-102 (the third
operand of each chain re-reads the same meta object, hence the repeated
field).  A record with no embedding key would have crashed the loader, so
the embedding defaults to the empty vector here. -/
noncomputable def scored_results (resume_arr : List ℝ) (jobs : List EmbRec) :
    List Result4 :=
  jobs.map fun rec =>
    { job_key := rec.job_key
      title := py_or (py_or rec.meta.title rec.meta.job_title) rec.meta.title
      company := py_or (py_or rec.meta.companyName rec.meta.company)
        rec.meta.companyName
      location := py_or (py_or (py_or rec.meta.location
        rec.meta.location_normalized) rec.meta.location_raw) rec.meta.location
      similarity := safe_cosine_similarity resume_arr (rec.embedding.getD [])
      meta := rec.meta }

/-- The sort relation of line 113: sorted(results, key=similarity,
reverse=True) places x before y whenever the similarity of y is at most the
similarity of x; Python sorting is stable, which the insertion sort used
below also is. -/
def simDesc (x y : Result4) : Prop := y.similarity ≤ x.similarity

noncomputable instance : DecidableRel simDesc := fun x y =>
  inferInstanceAs (Decidable (y.similarity ≤ x.similarity))

instance : IsTotal Result4 simDesc := ⟨fun a b => le_total b.similarity a.similarity⟩

instance : IsTrans Result4 simDesc := ⟨fun _ _ _ h1 h2 => le_trans h2 h1⟩

/-- The stable descending sort of line 113. -/
noncomputable def results_sorted (resume_arr : List ℝ) (jobs : List EmbRec) :
    List Result4 :=
  List.insertionSort simDesc (scored_results resume_arr jobs)

/-- Shallow embedding of the ranking core of rank_jobs
(src/Stage4Similarity.py, lines 112-114): sort by similarity descending and
keep the first top_n entries (Python slice results_sorted[:top_n]). -/
noncomputable def rank_jobs (resume_arr : List ℝ) (jobs : List EmbRec)
    (top_n : ℕ) : List Result4 :=
  (results_sorted resume_arr jobs).take top_n

/-- The rank column of the CSV writer (lines 119-131): the rows are
enumerate(top_results, start=1), so row i carries rank i+1 paired with the
i-th top result. -/
def top_jobs_csv_rows (top_results : List Result4) : List (ℕ × Result4) :=
  top_results.enumFrom 1

/- ===================================================================
   Definitions: Stage 3 embedding client (src/Stage3OpenAIEmbedding.py)
   =================================================================== -/

/-- Batch size constant of line 55. -/
def BATCH_SIZE : ℕ := 64

/-- Retry bound constant of line 56. -/
def MAX_RETRIES : ℕ := 5

/-- Input truncation constant of line 62. -/
def TRUNCATE_INPUT_CHARS : ℕ := 32000

/-- Recursion core of chunked, structural on a fuel bound on the number of
remaining elements so that closed applications compute: while elements
remain, emit the next n-sized slice and continue after it. -/
def chunkedAux {α : Type} (n : ℕ) : ℕ → List α → List (List α)
  | _, [] => []
  | 0, _ :: _ => []
  | fuel + 1, x :: xs => (x :: xs).take n :: chunkedAux n fuel ((x :: xs).drop n)

/-- Shallow embedding of chunked (src/Stage3OpenAIEmbedding.py, lines
78-81): successive n-sized chunks of a list, mirroring range(0, len, n).
Python raises ValueError for step 0; that case is unreachable in the
program (the only call sites pass BATCH_SIZE = 64 or are quantified over
positive n) and is modelled as the empty chunk list. -/
def chunked {α : Type} (l : List α) (n : ℕ) : List (List α) :=
  if n = 0 then [] else chunkedAux n l.length l

/-- Python str.strip whitespace set (space, tab, newline, carriage return,
vertical tab, form feed). -/
def pyWhitespace (c : Char) : Bool :=
  (c == ' ') || (c == '\t') || (c == '\n') || (c == '\r') ||
    (c == Char.ofNat 11) || (c == Char.ofNat 12)

/-- Python str.strip(): remove leading and trailing whitespace. -/
def pyStrip (s : String) : String :=
  String.mk (((s.data.dropWhile pyWhitespace).reverse.dropWhile
    pyWhitespace).reverse)

/-- One cleaned job record as consumed by Stage 3 (the fields read on lines
124-139 of src/Stage3OpenAIEmbedding.py); absent JSON keys are none. -/
structure Job3 where
  job_key : Option String
  title : Option String
  companyName : Option String
  location_normalized : Option String
  location_raw : Option String
  description : Option String
deriving DecidableEq, Repr

/-- The text submitted to the embedding service for one job (lines 126-133):
stripped title, company and location joined with the raw description by
single spaces, empty parts dropped, truncated at TRUNCATE_INPUT_CHARS with a
marker appended. -/
def job3_text (r : Job3) : String :=
  let title := pyStrip (r.title.getD "")
  let company := pyStrip (r.companyName.getD "")
  let location := pyStrip ((py_or r.location_normalized r.location_raw).getD "")
  let desc := r.description.getD ""
  let text := String.intercalate " "
    (([title, company, location, desc]).filter fun p => !p.isEmpty)
  if text.length > TRUNCATE_INPUT_CHARS then
    (String.mk (text.data.take TRUNCATE_INPUT_CHARS)) ++ " ... (truncated)"
  else text

/-- The meta object stored next to each job embedding (lines 134-139). -/
structure Meta3 where
  job_key : Option String
  title : String
  companyName : String
  location : String
deriving DecidableEq, Repr

/-- The meta built for one job (lines 134-139). -/
def job3_meta (r : Job3) : Meta3 :=
  { job_key := r.job_key
    title := pyStrip (r.title.getD "")
    companyName := pyStrip (r.companyName.getD "")
    location := pyStrip ((py_or r.location_normalized r.location_raw).getD "") }

/-- One line written to jobs_embeddings.jsonl (line 151). -/
structure OutLine where
  job_key : Option String
  meta : Meta3
  embedding : List ℚ
deriving DecidableEq, Repr

/-- The files the pipeline stages write, named after the constants of
main.py lines 41-48. -/
inductive FileName where
  | rawJson : FileName
  | stage1Jobs : FileName
  | stage1Csv : FileName
  | cleanedJobs : FileName
  | cleanedCsv : FileName
  | processedResume : FileName
  | jobsEmbeddings : FileName
  | jobsNpy : FileName
  | resumeEmbedding : FileName
  | topJobs : FileName
  | topCsv : FileName
deriving DecidableEq, Repr

/-- One answer of the embedding HTTP endpoint as consumed by
call_openai_embeddings: an HTTP status with the optional data array of the
JSON body, or a requests exception. -/
inductive ApiResp where
  | http : ℕ → Option (List (List ℚ)) → ApiResp
  | netException : ApiResp

/-- The transient statuses of line 102: 429, 502, 503, 504. -/
def isTransientStatus (s : ℕ) : Bool :=
  (s == 429) || (s == 502) || (s == 503) || (s == 504)

/-- The retry loop of call_openai_embeddings
(src/Stage3OpenAIEmbedding.py, lines 83-112), with the service modelled as a
function from the attempt number to its answer.  The first component is the
returned embeddings or the raised error; the second counts the service
calls made.  A 200 answer with a data array returns it; a 200 answer
without one raises (RuntimeError is not caught by the except clause); a
transient status or a requests exception backs off and retries; any other
status raises immediately; an exhausted loop raises the final RuntimeError
of line 112. -/
def call_openai_attempts (service : ℕ → ApiResp) :
    ℕ → ℕ → Except String (List (List ℚ)) × ℕ
  | 0, _ => (Except.error "Failed to get embeddings after 5 attempts.", 0)
  | fuel + 1, attempt =>
    match service attempt with
    | ApiResp.http 200 (some data) => (Except.ok data, 1)
    | ApiResp.http 200 none => (Except.error "Unexpected response shape", 1)
    | ApiResp.http s _ =>
      if isTransientStatus s then
        let r := call_openai_attempts service fuel (attempt + 1)
        (r.1, r.2 + 1)
      else (Except.error ("OpenAI error " ++ toString s), 1)
    | ApiResp.netException =>
      let r := call_openai_attempts service fuel (attempt + 1)
      (r.1, r.2 + 1)

/-- call_openai_embeddings runs the attempt loop for attempts 1..MAX_RETRIES
(line 91). -/
def call_openai_embeddings (service : ℕ → ApiResp) :
    Except String (List (List ℚ)) × ℕ :=
  call_openai_attempts service MAX_RETRIES 1

/-- The inner loop of lines 149-154: pair each embedding of one batch answer
with metas[idx], advancing idx.  A missing index raises IndexError. -/
def pair_out_lines (metas : List Meta3) :
    List (List ℚ) → ℕ → Except String (List OutLine)
  | [], _ => Except.ok []
  | e :: es, idx =>
    match metas[idx]? with
    | none => Except.error "IndexError: list index out of range"
    | some m =>
      (pair_out_lines metas es (idx + 1)).map fun rest =>
        { job_key := m.job_key, meta := m, embedding := e } :: rest

/-- The batch loop of lines 141-156: call the embedding client on each
chunk (the client is abstracted as a function returning its embeddings or
its raised error), accumulating out_lines and all_embeddings. -/
def batch_loop (embed : List String → Except String (List (List ℚ)))
    (metas : List Meta3) :
    List (List String) → ℕ → Except String (List OutLine × List (List ℚ))
  | [], _ => Except.ok ([], [])
  | c :: cs, idx =>
    match embed c with
    | Except.error e => Except.error e
    | Except.ok es =>
      match pair_out_lines metas es idx with
      | Except.error e => Except.error e
      | Except.ok lines =>
        match batch_loop embed metas cs (idx + es.length) with
        | Except.error e => Except.error e
        | Except.ok rest => Except.ok (lines ++ rest.1, es ++ rest.2)

/-- The observable outcome of one Stage 3 run: which output files exist
afterwards (in the order written), the process exit code (0 on a normal
return, 1 on an uncaught exception), and the JSONL content. -/
structure Stage3Result where
  written : List FileName
  exitCode : ℕ
  out_lines : List OutLine
deriving DecidableEq, Repr

/-- Shallow embedding of Stage 3 main (src/Stage3OpenAIEmbedding.py, lines
117-180): embed all job texts in batches; on success write
jobs_embeddings.jsonl and jobs_embeddings.npy; then strip the resume text;
an empty stripped resume skips the resume embedding and returns normally; a
nonempty one is truncated and embedded as a one-element batch, and only on
its success is resume_embedding.json written.  A raised error before the
JSONL write leaves no file; one in the resume call leaves the two job
files. -/
def stage3_main (embed : List String → Except String (List (List ℚ)))
    (jobs : List Job3) (resume_text_raw : String) : Stage3Result :=
  let inputs := jobs.map job3_text
  let metas := jobs.map job3_meta
  match batch_loop embed metas (chunked inputs BATCH_SIZE) 0 with
  | Except.error _ => { written := [], exitCode := 1, out_lines := [] }
  | Except.ok (out_lines, _all_embeddings) =>
    let resume_text := pyStrip resume_text_raw
    if resume_text.isEmpty then
      { written := [FileName.jobsEmbeddings, FileName.jobsNpy],
        exitCode := 0, out_lines := out_lines }
    else
      let resume_text :=
        if resume_text.length > TRUNCATE_INPUT_CHARS then
          (String.mk (resume_text.data.take TRUNCATE_INPUT_CHARS)) ++
            " ... (truncated)"
        else resume_text
      match embed [resume_text] with
      | Except.error _ =>
        { written := [FileName.jobsEmbeddings, FileName.jobsNpy],
          exitCode := 1, out_lines := out_lines }
      | Except.ok [] =>
        { written := [FileName.jobsEmbeddings, FileName.jobsNpy],
          exitCode := 1, out_lines := out_lines }
      | Except.ok (_ :: _) =>
        { written := [FileName.jobsEmbeddings, FileName.jobsNpy,
            FileName.resumeEmbedding], exitCode := 0, out_lines := out_lines }

/-- The orchestrator skip condition for Stage 3 (src/main.py, line 165)
evaluated against a set of existing files: the stage is skipped only when
both jobs_embeddings.jsonl and resume_embedding.json exist. -/
def stage3_outputs_complete (written : List FileName) : Bool :=
  (written.contains FileName.jobsEmbeddings) &&
    (written.contains FileName.resumeEmbedding)

/- ===================================================================
   Definitions: Stage 1 acquisition (src/Stage1DataAcquisition.py)
   =================================================================== -/

/-- A JSON value, the shape of the provider response body consumed by
find_jobs and flatten_job.  Objects keep field order (Python dicts preserve
insertion order, which the fallback scan of find_jobs relies on). -/
inductive JVal where
  | null : JVal
  | bool : Bool → JVal
  | num : ℚ → JVal
  | str : String → JVal
  | arr : List JVal → JVal
  | obj : List (String × JVal) → JVal

/-- Python dict .get(k): the first value stored under k, or None. -/
def dget (fields : List (String × JVal)) (k : String) : JVal :=
  match fields.lookup k with
  | some v => v
  | none => JVal.null

/-- Python truthiness of a JSON value: None, False, 0, the empty string, the
empty array and the empty object are falsy. -/
def pyTruthy : JVal → Bool
  | JVal.null => false
  | JVal.bool b => b
  | JVal.num q => decide (q ≠ 0)
  | JVal.str s => !s.isEmpty
  | JVal.arr l => !l.isEmpty
  | JVal.obj l => !l.isEmpty

/-- Python a or b on JSON values: a when truthy, otherwise b. -/
def py_or_j (a b : JVal) : JVal := if pyTruthy a then a else b

/-- isinstance(v, dict). -/
def isObjV : JVal → Bool
  | JVal.obj _ => true
  | _ => false

/-- The string content of a JSON string, defaulting to the empty string.
flatten_job only feeds a truthy descriptionHtml value to the HTML adapter;
a truthy non-string there would crash BeautifulSoup and is out of scope. -/
def asStr : JVal → String
  | JVal.str s => s
  | _ => ""

/-- Python str() of a JSON value, as used for the attributes column.  The
repr of composite values is abstracted; no claim inspects it. -/
def pyStr : JVal → String
  | JVal.null => "None"
  | JVal.bool b => if b then "True" else "False"
  | JVal.num q => toString q
  | JVal.str s => s
  | JVal.arr _ => "<list>"
  | JVal.obj _ => "<dict>"

/-- The key-probing loop of find_jobs (src/Stage1DataAcquisition.py, lines
110-113): the first of the keys data, results, items, jobs, listings whose
value is a list (possibly empty). -/
def first_key_list (fields : List (String × JVal)) :
    List String → Option (List JVal)
  | [] => none
  | k :: ks =>
    match dget fields k with
    | JVal.arr l => some l
    | _ => first_key_list fields ks

/-- The fallback scan of find_jobs (lines 114-116): the first field value
that is a nonempty list headed by a dict. -/
def scan_values : List (String × JVal) → Option (List JVal)
  | [] => none
  | (_, v) :: rest =>
    match v with
    | JVal.arr (h :: t) => if isObjV h then some (h :: t) else scan_values rest
    | _ => scan_values rest

/-- Shallow embedding of find_jobs (src/Stage1DataAcquisition.py, lines
103-119): look for returnvalue.data, then the known list keys, then any
field holding a nonempty list of dicts; a top-level nonempty list headed by
a dict is returned as is. -/
def find_jobs (o : JVal) : Option (List JVal) :=
  match o with
  | JVal.obj fields =>
    let viaKeys :=
      match first_key_list fields ["data", "results", "items", "jobs", "listings"] with
      | some l => some l
      | none => scan_values fields
    match dget fields "returnvalue" with
    | JVal.obj rvf =>
      match dget rvf "data" with
      | JVal.arr l => some l
      | _ => viaKeys
    | _ => viaKeys
  | JVal.arr (h :: t) => if isObjV h then some (h :: t) else none
  | _ => none

/-- The field list of a JSON dict, or none for any other value
(isinstance(j, dict) filter of line 218). -/
def asObjFields : JVal → Option (List (String × JVal))
  | JVal.obj f => some f
  | _ => none

/-- The flattened record built by flatten_job (lines 121-159). -/
structure FlatJob where
  job_key : JVal
  title : JVal
  companyName : JVal
  city : JVal
  state : JVal
  formattedAddress : JVal
  datePublished : JVal
  jobUrl : JVal
  salary_text : JVal
  salary_min : JVal
  salary_max : JVal
  descriptionText : JVal
  attributes : String
  raw : List (String × JVal)

/-- Shallow embedding of flatten_job (src/Stage1DataAcquisition.py, lines
121-159).  The HTML-to-text sanitizer (BeautifulSoup) is an external
collaborator and is passed in as the function h2t.  flatten_job can raise:
a truthy non-string descriptionHtml is handed to BeautifulSoup, which
raises TypeError (line 97), and a truthy non-dict salary value has no .get
method, so line 137 raises AttributeError (unlike location and attributes,
salary has no isinstance guard).  The two raises are ordered as in the
source: the description (lines 130-134) before the salary (lines
136-139). -/
def flatten_job (h2t : String → String) (job : List (String × JVal)) :
    Except String FlatJob :=
  let loc := py_or_j (dget job "location") (JVal.obj [])
  let city := match loc with
    | JVal.obj lf => py_or_j (dget lf "city") (dget lf "cityName")
    | _ => JVal.null
  let state := match loc with
    | JVal.obj lf => py_or_j (dget lf "region") (dget lf "state")
    | _ => JVal.null
  let formatted := match loc with
    | JVal.obj lf =>
      py_or_j (py_or_j (dget lf "formattedAddressLong")
        (dget lf "formattedAddressShort")) (dget lf "fullAddress")
    | _ => JVal.null
  let description_html := dget job "descriptionHtml"
  let descE : Except String JVal :=
    if pyTruthy description_html then
      match description_html with
      | JVal.str s => Except.ok (JVal.str (h2t s))
      | _ => Except.error "TypeError: BeautifulSoup on a non-string"
    else
      Except.ok (py_or_j (py_or_j (py_or_j (dget job "descriptionText")
        (dget job "description")) (dget job "snippet")) (JVal.str ""))
  match descE with
  | Except.error e => Except.error e
  | Except.ok desc =>
    let salary := py_or_j (dget job "salary") (JVal.obj [])
    match salary with
    | JVal.obj sf =>
      let attrs := py_or_j (dget job "attributes") (JVal.arr [])
      let attrs_str := match attrs with
        | JVal.arr l => String.intercalate "; " (l.map pyStr)
        | v => pyStr v
      Except.ok
        { job_key := py_or_j (py_or_j (dget job "jobKey") (dget job "id"))
            (dget job "job_id")
          title := dget job "title"
          companyName := py_or_j (py_or_j (dget job "companyName")
            (dget job "company")) (dget job "company_name")
          city := city
          state := state
          formattedAddress := formatted
          datePublished := dget job "datePublished"
          jobUrl := py_or_j (py_or_j (dget job "jobUrl") (dget job "url"))
            (dget job "link")
          salary_text := py_or_j (dget sf "salaryText") (dget sf "text")
          salary_min := py_or_j (dget sf "salaryMin") (dget sf "salary_min")
          salary_max := py_or_j (dget sf "salaryMax") (dget sf "salary_max")
          descriptionText := desc
          attributes := attrs_str
          raw := job }
    | _ =>
      Except.error "AttributeError: salary value has no attribute get"

/-- The list comprehension of line 218 restricted to the dict records:
flatten them left to right; the first raise aborts the whole comprehension
(and with it Stage 1). -/
def flatten_all (h2t : String → String) :
    List (List (String × JVal)) → Except String (List FlatJob)
  | [] => Except.ok []
  | d :: ds =>
    match flatten_job h2t d with
    | Except.error e => Except.error e
    | Except.ok fj =>
      match flatten_all h2t ds with
      | Except.error e => Except.error e
      | Except.ok rest => Except.ok (fj :: rest)

/-- Whether an Except value is a success. -/
def exceptIsOk {ε α : Type} : Except ε α → Bool
  | Except.ok _ => true
  | Except.error _ => false

/-- The possible outcomes of the single POST of Stage 1 main (lines
188-211): an HTTP error status (raise_for_status), a requests exception, a
success whose body fails to parse as JSON (r.json() on line 211 sits
outside the try/except, so the ValueError is uncaught), or a success with a
parsed JSON body. -/
inductive S1Outcome where
  | httpError : S1Outcome
  | requestException : S1Outcome
  | okNotJson : S1Outcome
  | okResponse : JVal → S1Outcome

/-- The observable outcome of one Stage 1 run: the files written (in
order), the process exit code, and the processed-record count logged at the
end (none when the run ended early). -/
structure Stage1Result where
  written : List FileName
  exitCode : ℕ
  processed : Option ℕ

/-- Shallow embedding of Stage 1 main (src/Stage1DataAcquisition.py, lines
184-223).  Every HANDLED error path logs and returns normally with exit
code 0: an HTTP error saves the raw body and returns; a requests exception
returns without writing; a response with no recognizable job list (or an
empty one - if not jobs) saves only the raw response and returns.  The
unhandled paths exit 1: a 200 body that is not JSON crashes on line 211
before anything is written, and a dict record whose flattening raises
(flatten_job) crashes the comprehension of line 218 after only the raw
response was saved.  Only the full success path writes stage1_jobs.json and
stage1_jobs.csv and logs the processed count. -/
def stage1_main (h2t : String → String) (o : S1Outcome) : Stage1Result :=
  match o with
  | S1Outcome.httpError =>
    { written := [FileName.rawJson], exitCode := 0, processed := none }
  | S1Outcome.requestException =>
    { written := [], exitCode := 0, processed := none }
  | S1Outcome.okNotJson =>
    { written := [], exitCode := 1, processed := none }
  | S1Outcome.okResponse body =>
    match find_jobs body with
    | none => { written := [FileName.rawJson], exitCode := 0, processed := none }
    | some [] => { written := [FileName.rawJson], exitCode := 0, processed := none }
    | some (j :: js) =>
      match flatten_all h2t ((j :: js).filterMap asObjFields) with
      | Except.error _ =>
        { written := [FileName.rawJson], exitCode := 1, processed := none }
      | Except.ok flattened =>
        { written := [FileName.rawJson, FileName.stage1Jobs, FileName.stage1Csv],
          exitCode := 0, processed := some flattened.length }

/-- The Stage 1 script as a process: the module-level RAPIDAPI_KEY check of
lines 29-34 raises RuntimeError before main runs (exit code 1) when the key
is absent; otherwise main runs to completion. -/
def stage1_script (keyPresent : Bool) (h2t : String → String)
    (o : S1Outcome) : Stage1Result :=
  if keyPresent then stage1_main h2t o
  else { written := [], exitCode := 1, processed := none }

/- ===================================================================
   Definitions: orchestrator (src/main.py)
   =================================================================== -/

/-- The four pipeline stages of main.py. -/
inductive StageName where
  | acquire : StageName
  | clean : StageName
  | embed : StageName
  | rank : StageName
deriving DecidableEq, Repr

/-- The orchestrator CLI flags consumed by orchestrate (lines 88-96). -/
structure OrArgs where
  skip1 : Bool
  skip2 : Bool
  skip3 : Bool
  skip4 : Bool
  continueOnError : Bool
  forceStage1 : Bool
deriving DecidableEq, Repr

/-- Which credentials are present in the environment. -/
structure OrEnv where
  rapidapiKey : Bool
  openaiKey : Bool
deriving DecidableEq, Repr

/-- Which stage output files already exist when the orchestrator starts
(the existence checks of lines 130, 149, 165, 185). -/
structure OrFS where
  stage1Out : Bool
  stage2OutJson : Bool
  stage3JobsEmbed : Bool
  stage3ResumeEmbed : Bool
  stage4Top : Bool
deriving DecidableEq, Repr

/-- The exit code each stage subprocess would return if run. -/
structure StageRCs where
  rc1 : ℕ
  rc2 : ℕ
  rc3 : ℕ
  rc4 : ℕ
deriving DecidableEq, Repr

/-- The outcome of one orchestrator run: which stages were actually
executed as subprocesses, in order, and the return code of orchestrate. -/
structure OrResult where
  executed : List StageName
  rc : ℕ
deriving DecidableEq, Repr

/-- Constant of main.py line 53. -/
def SKIP_IF_OUTPUT_EXISTS : Bool := true

/-- The possible outcomes of one subprocess.run call inside run_script. -/
inductive ProcOutcome where
  | exited : ℕ → ProcOutcome
  | timedOut : ProcOutcome
  | raised : ProcOutcome

/-- Shallow embedding of run_script (src/main.py, lines 63-81): the child
exit code is passed through, a timeout yields the dedicated code 124, and
any other exception while launching yields 1. -/
def run_script : ProcOutcome → ℕ
  | ProcOutcome.exited c => c
  | ProcOutcome.timedOut => 124
  | ProcOutcome.raised => 1

/-- Stage 4 block of orchestrate (src/main.py, lines 180-192): skip by flag
or existing top_jobs.json; otherwise run, and on a nonzero code under
fail-fast return it; the run then falls through to the final return 0 of
line 202. -/
def stage4_step (args : OrArgs) (fs : OrFS) (rcs : StageRCs)
    (ex : List StageName) : OrResult :=
  if args.skip4 then { executed := ex, rc := 0 }
  else if SKIP_IF_OUTPUT_EXISTS && fs.stage4Top then { executed := ex, rc := 0 }
  else
    let ex2 := ex ++ [StageName.rank]
    if rcs.rc4 ≠ 0 ∧ args.continueOnError = false then
      { executed := ex2, rc := rcs.rc4 }
    else { executed := ex2, rc := 0 }

/-- Stage 3 block of orchestrate (src/main.py, lines 161-178): skip by flag
or when BOTH embedding outputs exist; with no OPENAI_API_KEY the stage is
not run, and under fail-fast orchestrate returns 1; otherwise run and on a
nonzero code under fail-fast return it. -/
def stage3_step (args : OrArgs) (env : OrEnv) (fs : OrFS) (rcs : StageRCs)
    (ex : List StageName) : OrResult :=
  if args.skip3 then stage4_step args fs rcs ex
  else if SKIP_IF_OUTPUT_EXISTS && fs.stage3JobsEmbed && fs.stage3ResumeEmbed then
    stage4_step args fs rcs ex
  else if env.openaiKey = false then
    if args.continueOnError = false then { executed := ex, rc := 1 }
    else stage4_step args fs rcs ex
  else
    let ex2 := ex ++ [StageName.embed]
    if rcs.rc3 ≠ 0 ∧ args.continueOnError = false then
      { executed := ex2, rc := rcs.rc3 }
    else stage4_step args fs rcs ex2

/-- Stage 2 block of orchestrate (src/main.py, lines 145-159). -/
def stage2_step (args : OrArgs) (env : OrEnv) (fs : OrFS) (rcs : StageRCs)
    (ex : List StageName) : OrResult :=
  if args.skip2 then stage3_step args env fs rcs ex
  else if SKIP_IF_OUTPUT_EXISTS && fs.stage2OutJson then
    stage3_step args env fs rcs ex
  else
    let ex2 := ex ++ [StageName.clean]
    if rcs.rc2 ≠ 0 ∧ args.continueOnError = false then
      { executed := ex2, rc := rcs.rc2 }
    else stage3_step args env fs rcs ex2

/-- Stage 1 block of orchestrate (src/main.py, lines 125-143): skip by flag
or existing stage1_jobs.json unless forced.  A missing RAPIDAPI_KEY only
prints a warning (line 137-138); the stage is run regardless.  The
stage1_runs safety counter starts at 0 and MAX_STAGE1_RUNS is 1, so the
refusal branch of line 133 is unreachable in a single orchestrate call. -/
def stage1_step (args : OrArgs) (env : OrEnv) (fs : OrFS) (rcs : StageRCs)
    (ex : List StageName) : OrResult :=
  if args.skip1 then stage2_step args env fs rcs ex
  else if SKIP_IF_OUTPUT_EXISTS && fs.stage1Out && !args.forceStage1 then
    stage2_step args env fs rcs ex
  else
    let ex2 := ex ++ [StageName.acquire]
    if rcs.rc1 ≠ 0 ∧ args.continueOnError = false then
      { executed := ex2, rc := rcs.rc1 }
    else stage2_step args env fs rcs ex2

/-- Shallow embedding of orchestrate (src/main.py, lines 99-202): the four
stage blocks in order, threading the list of executed stages; the final
return is 0. -/
def orchestrate (args : OrArgs) (env : OrEnv) (fs : OrFS) (rcs : StageRCs) :
    OrResult :=
  stage1_step args env fs rcs []

/- ===================================================================
   Helper lemmas
   =================================================================== -/

/-- The ranked output always has length min(top_n, candidate count). -/
theorem rank_jobs_length (resume_arr : List ℝ) (jobs : List EmbRec)
    (top_n : ℕ) :
    (rank_jobs resume_arr jobs top_n).length = min top_n jobs.length := by
  have hperm := List.perm_insertionSort simDesc (scored_results resume_arr jobs)
  have hlen : (results_sorted resume_arr jobs).length = jobs.length := by
    rw [results_sorted, hperm.length_eq, scored_results, List.length_map]
  simp [rank_jobs, hlen]

/-- Inserting one element into a list never disturbs the relative order of
the elements already present, and an element of similarity s is inserted
before every later element of the same similarity: filtering the insertion
by any fixed similarity value either prepends the new element (when it has
that similarity) or leaves the filtered list unchanged. -/
theorem filter_sim_orderedInsert (s : ℝ) (x : Result4) :
    ∀ l : List Result4,
      (List.orderedInsert simDesc x l).filter
          (fun r => decide (r.similarity = s)) =
        if x.similarity = s then
          x :: l.filter (fun r => decide (r.similarity = s))
        else l.filter (fun r => decide (r.similarity = s))
  | [] => by
    by_cases hx : x.similarity = s <;> simp [hx]
  | y :: ys => by
    by_cases hr : simDesc x y
    · by_cases hx : x.similarity = s <;>
        simp [List.orderedInsert, hr, List.filter_cons, hx]
    · have hlt : x.similarity < y.similarity := lt_of_not_le fun h => hr h
      by_cases hx : x.similarity = s
      · have hy : ¬(y.similarity = s) := by
          intro hy
          rw [hx] at hlt
          rw [hy] at hlt
          exact lt_irrefl s hlt
        simp [List.orderedInsert, hr, List.filter_cons, hx, hy,
          filter_sim_orderedInsert s x ys]
      · by_cases hy : y.similarity = s <;>
          simp [List.orderedInsert, hr, List.filter_cons, hx, hy,
            filter_sim_orderedInsert s x ys]

/-- The stable descending sort preserves, for every similarity value s, the
subsequence of entries whose similarity is s, in their original order. -/
theorem filter_sim_insertionSort (s : ℝ) :
    ∀ l : List Result4,
      (List.insertionSort simDesc l).filter
          (fun r => decide (r.similarity = s)) =
        l.filter (fun r => decide (r.similarity = s))
  | [] => rfl
  | a :: l => by
    rw [List.insertionSort, filter_sim_orderedInsert s a,
      filter_sim_insertionSort s l]
    by_cases ha : a.similarity = s <;> simp [List.filter_cons, ha]

/-- The first components of enumerate(l, start=n) are n, n+1, ..., n+len-1. -/
theorem enumFrom_fst_eq_range' :
    ∀ (n : ℕ) (l : List Result4),
      (l.enumFrom n).map Prod.fst = List.range' n l.length
  | _, [] => rfl
  | n, a :: l => by
    rw [List.enumFrom, List.map_cons, List.length_cons, List.range',
      enumFrom_fst_eq_range' (n + 1) l]

/- ===================================================================
   Claims C1, C2, C3 (Stage 4)
   =================================================================== -/

/-- C1: similarity is 0 when either vector has zero Euclidean norm; otherwise
it is the normalized dot product clipped into [-1, 1]; and the result always
lies within [-1, 1].  (The NaN clause of the claim is vacuous over exact real
arithmetic, where no NaN value exists.) -/
theorem c1_similarity_guarded_clipped_bounded (a b : List ℝ) :
    (euclidNorm a = 0 ∨ euclidNorm b = 0 → safe_cosine_similarity a b = 0) ∧
    (¬(euclidNorm a = 0 ∨ euclidNorm b = 0) →
      safe_cosine_similarity a b =
        max (min (dotProd a b / (euclidNorm a * euclidNorm b)) 1) (-1)) ∧
    -1 ≤ safe_cosine_similarity a b ∧ safe_cosine_similarity a b ≤ 1 := by
  refine ⟨fun h => by simp [safe_cosine_similarity, h],
          fun h => by simp [safe_cosine_similarity, h], ?_, ?_⟩
  · by_cases h : euclidNorm a = 0 ∨ euclidNorm b = 0
    · simp [safe_cosine_similarity, h]
    · simp only [safe_cosine_similarity, h, if_false]
      exact le_max_right _ _
  · by_cases h : euclidNorm a = 0 ∨ euclidNorm b = 0
    · simp [safe_cosine_similarity, h]
    · simp only [safe_cosine_similarity, h, if_false]
      exact max_le (min_le_right _ _) (by norm_num)

/-- C2: the ranked output has length min(top_n, number of candidates), its
entries are sorted by similarity non-increasing, and requesting more results
than there are candidates is not an error (rank_jobs is total and simply
returns all candidates, sorted). -/
theorem c2_rank_length_and_sorted (resume_arr : List ℝ) (jobs : List EmbRec)
    (top_n : ℕ) :
    (rank_jobs resume_arr jobs top_n).length = min top_n jobs.length ∧
    (rank_jobs resume_arr jobs top_n).Sorted simDesc := by
  constructor
  · exact rank_jobs_length resume_arr jobs top_n
  · exact List.Pairwise.sublist (List.take_sublist _ _)
      (List.sorted_insertionSort simDesc (scored_results resume_arr jobs))

/-- C3: ties preserve input order (for every similarity value s, the
candidates of similarity s appear in the sorted output exactly in their
input order), and the CSV rows assign the dense 1-based ranks
1, 2, ..., min(top_n, candidate count) to the first top_n results. -/
theorem c3_rank_stable_and_dense_ranks (resume_arr : List ℝ)
    (jobs : List EmbRec) (top_n : ℕ) (s : ℝ) :
    (results_sorted resume_arr jobs).filter
        (fun r => decide (r.similarity = s)) =
      (scored_results resume_arr jobs).filter
        (fun r => decide (r.similarity = s)) ∧
    (top_jobs_csv_rows (rank_jobs resume_arr jobs top_n)).map Prod.fst =
      List.range' 1 (min top_n jobs.length) := by
  constructor
  · exact filter_sim_insertionSort s (scored_results resume_arr jobs)
  · rw [top_jobs_csv_rows, enumFrom_fst_eq_range' 1 _,
      rank_jobs_length resume_arr jobs top_n]

/- ===================================================================
   Helper lemmas for Stage 3 batching
   =================================================================== -/

/-- With positive chunk size and enough fuel, concatenating the chunks
restores the original list. -/
theorem chunkedAux_flatten {α : Type} (n : ℕ) (hn : 0 < n) :
    ∀ (fuel : ℕ) (l : List α), l.length ≤ fuel →
      (chunkedAux n fuel l).flatten = l
  | 0, [], _ => rfl
  | _ + 1, [], _ => rfl
  | 0, x :: xs, h => by simp at h
  | fuel + 1, x :: xs, h => by
    rw [chunkedAux, List.flatten_cons,
      chunkedAux_flatten n hn fuel ((x :: xs).drop n)
        (by simp only [List.length_drop, List.length_cons] at h ⊢; omega),
      List.take_append_drop]

/-- Splitting into positive-size chunks and concatenating restores the
original list. -/
theorem chunked_flatten {α : Type} (l : List α) (n : ℕ) (hn : 0 < n) :
    (chunked l n).flatten = l := by
  rw [chunked, if_neg (Nat.pos_iff_ne_zero.mp hn)]
  exact chunkedAux_flatten n hn l.length l le_rfl

/-- When the service answers each text t of a batch with f t and enough
metas remain, the pairing loop succeeds and pairs the i-th embedding of the
batch with meta index idx + i. -/
theorem pair_out_lines_map (f : String → List ℚ) (metas : List Meta3) :
    ∀ (c : List String) (idx : ℕ), idx + c.length ≤ metas.length →
      ∃ lines, pair_out_lines metas (c.map f) idx = Except.ok lines ∧
        lines.map OutLine.embedding = c.map f ∧
        lines.map OutLine.meta = (metas.drop idx).take c.length
  | [], idx, _ => ⟨[], rfl, rfl, by simp⟩
  | t :: ts, idx, h => by
    have hidx : idx < metas.length := by
      simp only [List.length_cons] at h
      omega
    obtain ⟨lines1, h1, h2, h3⟩ :=
      pair_out_lines_map f metas ts (idx + 1)
        (by simp only [List.length_cons] at h; omega)
    refine ⟨{ job_key := (metas[idx]).job_key, meta := metas[idx],
              embedding := f t } :: lines1, ?_, ?_, ?_⟩
    · rw [List.map_cons, pair_out_lines, List.getElem?_eq_getElem hidx, h1]
      rfl
    · rw [List.map_cons, List.map_cons, h2]
    · rw [List.map_cons, h3, List.length_cons,
        List.drop_eq_getElem_cons hidx, List.take_succ_cons]

/-- When the service answers each text t with f t and the metas cover all
remaining inputs, the batch loop succeeds: the accumulated embeddings are
exactly the map of f over the concatenated chunks, in order, and the JSONL
lines pair them with the corresponding metas. -/
theorem batch_loop_map (f : String → List ℚ) (metas : List Meta3) :
    ∀ (chunks : List (List String)) (idx : ℕ),
      idx + chunks.flatten.length ≤ metas.length →
      ∃ lines,
        batch_loop (fun b => Except.ok (b.map f)) metas chunks idx =
          Except.ok (lines, chunks.flatten.map f) ∧
        lines.map OutLine.embedding = chunks.flatten.map f ∧
        lines.map OutLine.meta = (metas.drop idx).take chunks.flatten.length
  | [], idx, _ => ⟨[], rfl, rfl, by simp⟩
  | c :: cs, idx, h => by
    have hc : idx + c.length ≤ metas.length := by
      simp only [List.flatten_cons, List.length_append] at h
      omega
    obtain ⟨lines1, h1, h2, h3⟩ := pair_out_lines_map f metas c idx hc
    obtain ⟨lines2, h4, h5, h6⟩ :=
      batch_loop_map f metas cs (idx + c.length)
        (by simp only [List.flatten_cons, List.length_append] at h; omega)
    refine ⟨lines1 ++ lines2, ?_, ?_, ?_⟩
    · simp only [batch_loop, h1, List.length_map, h4, List.flatten_cons,
        List.map_append]
    · rw [List.map_append, h2, h5, List.flatten_cons, List.map_append]
    · rw [List.map_append, h3, h6, List.flatten_cons, List.length_append,
        List.take_add, List.drop_drop]

/- ===================================================================
   Claims C4, C5 (Stage 3 embedding client)
   =================================================================== -/

/-- C4: for every job list and every positive batch size n, if each service
call answers one vector per submitted text in submission order (modelled by
a per-text function f), the batch loop produces exactly one output vector
per input text, in input order: the accumulated embedding list is the map of
f over the inputs (so its i-th entry is the embedding of the i-th input),
and the written JSONL lines carry the metas in input order. -/
theorem c4_batching_preserves_positions (f : String → List ℚ)
    (jobs : List Job3) (n : ℕ) (hn : 0 < n) :
    ∃ lines,
      batch_loop (fun b => Except.ok (b.map f)) (jobs.map job3_meta)
          (chunked (jobs.map job3_text) n) 0 =
        Except.ok (lines, (jobs.map job3_text).map f) ∧
      lines.map OutLine.embedding = (jobs.map job3_text).map f ∧
      lines.map OutLine.meta = jobs.map job3_meta := by
  have hflat := chunked_flatten (jobs.map job3_text) n hn
  have hlen : (jobs.map job3_text).length = (jobs.map job3_meta).length := by
    rw [List.length_map, List.length_map]
  obtain ⟨lines, h1, h2, h3⟩ :=
    batch_loop_map f (jobs.map job3_meta) (chunked (jobs.map job3_text) n) 0
      (by rw [hflat]; omega)
  rw [hflat] at h1 h2 h3
  refine ⟨lines, h1, h2, ?_⟩
  rw [h3, List.drop_zero, hlen, List.take_length]

/-- C4 witness: two jobs, batch size 1 (two batches), a concrete per-text
embedding function. -/
theorem c4_batching_preserves_positions_witness :
    ∃ lines,
      batch_loop
          (fun b => Except.ok (b.map fun s => [(s.length : ℚ)]))
          ([{ job_key := some "a", title := some "t1", companyName := none,
              location_normalized := none, location_raw := none,
              description := none },
            { job_key := some "b", title := some "t2", companyName := none,
              location_normalized := none, location_raw := none,
              description := none }].map job3_meta)
          (chunked
            ([{ job_key := some "a", title := some "t1", companyName := none,
                location_normalized := none, location_raw := none,
                description := none },
              { job_key := some "b", title := some "t2", companyName := none,
                location_normalized := none, location_raw := none,
                description := none }].map job3_text) 1) 0 =
        Except.ok (lines,
          ([{ job_key := some "a", title := some "t1", companyName := none,
              location_normalized := none, location_raw := none,
              description := none },
            { job_key := some "b", title := some "t2", companyName := none,
              location_normalized := none, location_raw := none,
              description := none }].map job3_text).map
            fun s => [(s.length : ℚ)]) ∧
      lines.map OutLine.embedding =
        ([{ job_key := some "a", title := some "t1", companyName := none,
            location_normalized := none, location_raw := none,
            description := none },
          { job_key := some "b", title := some "t2", companyName := none,
            location_normalized := none, location_raw := none,
            description := none }].map job3_text).map
          (fun s => [(s.length : ℚ)]) ∧
      lines.map OutLine.meta =
        [{ job_key := some "a", title := some "t1", companyName := none,
           location_normalized := none, location_raw := none,
           description := none },
         { job_key := some "b", title := some "t2", companyName := none,
           location_normalized := none, location_raw := none,
           description := none }].map job3_meta :=
  c4_batching_preserves_positions (fun s => [(s.length : ℚ)]) _ 1 (by decide)

/-- In a run where every attempt gets a transient HTTP status, the attempt
loop with fuel k makes exactly k calls and ends in the exhaustion error. -/
theorem call_attempts_all_transient (service : ℕ → ApiResp)
    (h : ∀ i, ∃ s body, service i = ApiResp.http s body ∧
      isTransientStatus s = true) :
    ∀ (fuel attempt : ℕ),
      call_openai_attempts service fuel attempt =
        (Except.error "Failed to get embeddings after 5 attempts.", fuel)
  | 0, _ => rfl
  | fuel + 1, attempt => by
    obtain ⟨s, body, hs, ht⟩ := h attempt
    have ih := call_attempts_all_transient service h fuel (attempt + 1)
    simp [isTransientStatus] at ht
    rcases ht with ((rfl | rfl) | rfl) | rfl <;>
      simp [call_openai_attempts, hs, isTransientStatus, ih]

/-- C5: a service that reports a transient error (rate-limit 429 or a
server-side transient 5xx) on every call causes exactly MAX_RETRIES = 5
attempts, after which call_openai_embeddings fails fatally with the
exhaustion error - no more, no fewer. -/
theorem c5_always_transient_exactly_max_retries (service : ℕ → ApiResp)
    (h : ∀ i, ∃ s body, service i = ApiResp.http s body ∧
      isTransientStatus s = true) :
    call_openai_embeddings service =
      (Except.error "Failed to get embeddings after 5 attempts.",
        MAX_RETRIES) :=
  call_attempts_all_transient service h MAX_RETRIES 1

/-- C5 witness: the service that always answers 429. -/
theorem c5_always_transient_exactly_max_retries_witness :
    call_openai_embeddings (fun _ => ApiResp.http 429 none) =
      (Except.error "Failed to get embeddings after 5 attempts.",
        MAX_RETRIES) :=
  c5_always_transient_exactly_max_retries (fun _ => ApiResp.http 429 none)
    (fun _ => ⟨429, none, rfl, rfl⟩)

/- ===================================================================
   Claims C6, C10 (checkpoints and the empty-resume run)
   =================================================================== -/

/-- C6 counterexample: a Stage 3 run whose resume-embedding call raises (the
service fails; here there are no jobs, so the batch loop succeeds trivially)
fails with exit code 1, yet its declared output file jobs_embeddings.jsonl
has already been created - so it is not the case that a failed stage leaves
none of its declared output files. -/
theorem c6_counterexample :
    (stage3_main (fun _ => Except.error "503 Service Unavailable") [] "x").exitCode = 1 ∧
    FileName.jobsEmbeddings ∈
      (stage3_main (fun _ => Except.error "503 Service Unavailable") [] "x").written := by
  constructor
  · rfl
  · decide

/-- C6 amended: a failed Stage 3 run can leave jobs_embeddings.jsonl (and
the npy) on disk, because those are written before the resume-embedding
call; but resume_embedding.json is written only on full success, so after
any failed run the orchestrator skip check (which requires both embedding
outputs) is false and the stage is re-attempted on the next run. -/
theorem c6_amended (embed : List String → Except String (List (List ℚ)))
    (jobs : List Job3) (resume_text_raw : String)
    (h : (stage3_main embed jobs resume_text_raw).exitCode ≠ 0) :
    FileName.resumeEmbedding ∉
      (stage3_main embed jobs resume_text_raw).written ∧
    stage3_outputs_complete
      (stage3_main embed jobs resume_text_raw).written = false := by
  cases hb : batch_loop embed (jobs.map job3_meta)
      (chunked (jobs.map job3_text) BATCH_SIZE) 0 with
  | error e =>
    simp [stage3_main, hb, stage3_outputs_complete]
  | ok v =>
    obtain ⟨ol, ae⟩ := v
    by_cases hemp : (pyStrip resume_text_raw).isEmpty
    · exfalso
      apply h
      simp [stage3_main, hb, hemp]
    · simp only [stage3_main, hb, hemp, Bool.false_eq_true, if_false] at h ⊢
      cases he : embed
          [if (pyStrip resume_text_raw).length > TRUNCATE_INPUT_CHARS then
              String.mk ((pyStrip resume_text_raw).data.take
                TRUNCATE_INPUT_CHARS) ++ " ... (truncated)"
            else pyStrip resume_text_raw] with
      | error e =>
        simp [he, stage3_outputs_complete]
      | ok vs =>
        cases vs with
        | nil => simp [he, stage3_outputs_complete]
        | cons v vs =>
          exfalso
          apply h
          simp [he]

/-- C10: when the processed resume text is empty or whitespace-only and the
embedding service succeeds (one vector per text, in order), Stage 3
completes with exit code 0 having written the job-embeddings outputs but no
resume-embedding file, and the orchestrator skip check for Stage 3 is false
afterwards, so a later orchestrator run re-runs the embedding stage. -/
theorem c10_empty_resume_success_without_resume_file (f : String → List ℚ)
    (jobs : List Job3) (resume_text_raw : String)
    (hemp : (pyStrip resume_text_raw).isEmpty = true) :
    (stage3_main (fun b => Except.ok (b.map f)) jobs resume_text_raw).exitCode
        = 0 ∧
    (stage3_main (fun b => Except.ok (b.map f)) jobs resume_text_raw).written
        = [FileName.jobsEmbeddings, FileName.jobsNpy] ∧
    FileName.resumeEmbedding ∉
      (stage3_main (fun b => Except.ok (b.map f)) jobs resume_text_raw).written ∧
    stage3_outputs_complete
      (stage3_main (fun b => Except.ok (b.map f)) jobs
        resume_text_raw).written = false := by
  have hflat := chunked_flatten (jobs.map job3_text) BATCH_SIZE (by decide)
  obtain ⟨lines, h1, h2, h3⟩ :=
    batch_loop_map f (jobs.map job3_meta)
      (chunked (jobs.map job3_text) BATCH_SIZE) 0
      (by rw [hflat]; simp [List.length_map])
  simp [stage3_main, h1, hemp, stage3_outputs_complete]

/-- C10 witness: no jobs and a whitespace-only resume text. -/
theorem c10_empty_resume_success_without_resume_file_witness :
    (stage3_main (fun b => Except.ok (b.map fun _ => ([] : List ℚ))) []
        " ").exitCode = 0 ∧
    (stage3_main (fun b => Except.ok (b.map fun _ => ([] : List ℚ))) []
        " ").written = [FileName.jobsEmbeddings, FileName.jobsNpy] ∧
    FileName.resumeEmbedding ∉
      (stage3_main (fun b => Except.ok (b.map fun _ => ([] : List ℚ))) []
        " ").written ∧
    stage3_outputs_complete
      (stage3_main (fun b => Except.ok (b.map fun _ => ([] : List ℚ))) []
        " ").written = false :=
  c10_empty_resume_success_without_resume_file (fun _ => ([] : List ℚ)) []
    " " (by decide)

/-- C6 amended witness: a concrete failed run (service always errors, resume
text nonempty). -/
theorem c6_amended_witness :
    (stage3_main (fun _ => Except.error "boom") [] "x").exitCode ≠ 0 ∧
    (FileName.resumeEmbedding ∉
        (stage3_main (fun _ => Except.error "boom") [] "x").written ∧
      stage3_outputs_complete
        (stage3_main (fun _ => Except.error "boom") [] "x").written = false) :=
  ⟨by decide, c6_amended (fun _ => Except.error "boom") [] "x" (by decide)⟩

/- ===================================================================
   Claim C7 (record-level error handling)
   =================================================================== -/

/-- If any line of the jobs JSONL input is bad (unparsable, or an object
without the embedding field), load_jobs_embeddings raises instead of
skipping it. -/
theorem load_jobs_embeddings_error_of_bad :
    ∀ lines : List RawLine, (∃ l ∈ lines, badLine l = true) →
      ∃ msg, load_jobs_embeddings lines = Except.error msg
  | [], h => absurd h (by simp)
  | RawLine.blank :: rest, h => by
    have hrest : ∃ l ∈ rest, badLine l = true := by
      obtain ⟨l, hl, hb⟩ := h
      cases hl with
      | head => simp [badLine] at hb
      | tail _ hmem => exact ⟨l, hmem, hb⟩
    obtain ⟨msg, hmsg⟩ := load_jobs_embeddings_error_of_bad rest hrest
    exact ⟨msg, by simp [load_jobs_embeddings, hmsg]⟩
  | RawLine.malformed :: _, _ => ⟨"json.loads failed", rfl⟩
  | RawLine.obj o :: rest, h => by
    by_cases ho : o.embedding.isNone
    · exact ⟨"Each jobs JSONL line must contain an embedding field.",
        by simp [load_jobs_embeddings, ho]⟩
    · have hrest : ∃ l ∈ rest, badLine l = true := by
        obtain ⟨l, hl, hb⟩ := h
        cases hl with
        | head => exact absurd hb (by simpa [badLine] using ho)
        | tail _ hmem => exact ⟨l, hmem, hb⟩
      obtain ⟨msg, hmsg⟩ := load_jobs_embeddings_error_of_bad rest hrest
      exact ⟨msg, by simp [load_jobs_embeddings, ho, hmsg, Except.map]⟩

/-- Stage 1 keeps exactly the dict records: the flattened list is as long as
the filter by isinstance(j, dict). -/
theorem length_filterMap_asObjFields :
    ∀ l : List JVal,
      (l.filterMap asObjFields).length = (l.filter isObjV).length
  | [] => rfl
  | v :: rest => by
    cases v <;>
      simp [List.filterMap_cons, List.filter_cons, asObjFields, isObjV,
        length_filterMap_asObjFields rest]

/-- When every record flattens without a raise, the comprehension yields one
flattened record per dict record. -/
theorem flatten_all_ok_length (h2t : String → String) :
    ∀ (l : List (List (String × JVal))) (fl : List FlatJob),
      flatten_all h2t l = Except.ok fl → fl.length = l.length
  | [], fl, h => by
    cases h
    rfl
  | d :: ds, fl, h => by
    simp only [flatten_all] at h
    cases hj : flatten_job h2t d with
    | error e => rw [hj] at h; cases h
    | ok fj =>
      rw [hj] at h
      cases hr : flatten_all h2t ds with
      | error e => rw [hr] at h; cases h
      | ok rest =>
        rw [hr] at h
        cases h
        simp [flatten_all_ok_length h2t ds rest hr]

/-- C7 counterexample: a jobs-embeddings input whose first record lacks the
embedding field makes the Stage 4 loader abort the whole stage with
ValueError, instead of skipping the record and continuing with the valid
record that follows. -/
theorem c7_counterexample_loader_aborts :
    load_jobs_embeddings
        [RawLine.obj ⟨none, emptyMeta4, none⟩,
         RawLine.obj ⟨some "good", emptyMeta4, some []⟩] =
      Except.error "Each jobs JSONL line must contain an embedding field." :=
  rfl

/-- C7 amended: Stage 1 skips records that are not JSON objects and, when
every remaining dict record flattens without a raise, continues and reports
the count of processed (dict) records with exit code 0; but a dict record
that CANNOT be flattened (e.g. a truthy non-dict salary) aborts Stage 1
with exit code 1 and no count, and the Stage 4 loader aborts on the first
unparsable line or record without an embedding field (only blank lines are
skipped) - so record-granular skipping covers non-dict records in Stage 1
only, not flattening failures and not the Stage 4 load. -/
theorem c7_amended_stage1_skips_stage4_aborts (h2t : String → String)
    (body : JVal) (jobs : List JVal) (lines : List RawLine) :
    (find_jobs body = some jobs → jobs ≠ [] →
      exceptIsOk (flatten_all h2t (jobs.filterMap asObjFields)) = true →
      (stage1_main h2t (S1Outcome.okResponse body)).exitCode = 0 ∧
      (stage1_main h2t (S1Outcome.okResponse body)).processed =
        some ((jobs.filter isObjV).length)) ∧
    (find_jobs body = some jobs → jobs ≠ [] →
      exceptIsOk (flatten_all h2t (jobs.filterMap asObjFields)) = false →
      (stage1_main h2t (S1Outcome.okResponse body)).exitCode = 1 ∧
      (stage1_main h2t (S1Outcome.okResponse body)).processed = none) ∧
    ((∃ l ∈ lines, badLine l = true) →
      ∃ msg, load_jobs_embeddings lines = Except.error msg) := by
  refine ⟨?_, ?_, load_jobs_embeddings_error_of_bad lines⟩
  · intro hfind hne hok
    obtain ⟨j, js, rfl⟩ : ∃ j js, jobs = j :: js := by
      cases jobs with
      | nil => exact absurd rfl hne
      | cons j js => exact ⟨j, js, rfl⟩
    cases hfl : flatten_all h2t ((j :: js).filterMap asObjFields) with
    | error e => rw [hfl] at hok; cases hok
    | ok fl =>
      have hlen := flatten_all_ok_length h2t _ fl hfl
      constructor
      · simp [stage1_main, hfind, hfl]
      · simp [stage1_main, hfind, hfl, hlen, length_filterMap_asObjFields]
  · intro hfind hne hbadfl
    obtain ⟨j, js, rfl⟩ : ∃ j js, jobs = j :: js := by
      cases jobs with
      | nil => exact absurd rfl hne
      | cons j js => exact ⟨j, js, rfl⟩
    cases hfl : flatten_all h2t ((j :: js).filterMap asObjFields) with
    | error e => exact ⟨by simp [stage1_main, hfind, hfl],
        by simp [stage1_main, hfind, hfl]⟩
    | ok fl => rw [hfl] at hbadfl; cases hbadfl

/-- C7 amended witness: a response with one flattenable dict record and one
non-dict record (skipped, count 1, exit 0), a response whose only record has
a truthy non-dict salary (Stage 1 aborts, exit 1, no count), and a one-line
jobs file whose record has no embedding (the Stage 4 loader aborts). -/
theorem c7_amended_stage1_skips_stage4_aborts_witness :
    ((stage1_main id (S1Outcome.okResponse
        (JVal.obj [("data", JVal.arr [JVal.obj [], JVal.num 1])]))).exitCode
        = 0 ∧
      (stage1_main id (S1Outcome.okResponse
          (JVal.obj [("data",
            JVal.arr [JVal.obj [], JVal.num 1])]))).processed =
        some (([JVal.obj [], JVal.num 1].filter isObjV).length)) ∧
    ((stage1_main id (S1Outcome.okResponse
        (JVal.obj [("data",
          JVal.arr [JVal.obj [("salary", JVal.str "x")]])]))).exitCode = 1 ∧
      (stage1_main id (S1Outcome.okResponse
          (JVal.obj [("data",
            JVal.arr [JVal.obj [("salary", JVal.str "x")]])]))).processed =
        none) ∧
    ∃ msg,
      load_jobs_embeddings [RawLine.obj ⟨none, emptyMeta4, none⟩] =
        Except.error msg :=
  ⟨(c7_amended_stage1_skips_stage4_aborts id
      (JVal.obj [("data", JVal.arr [JVal.obj [], JVal.num 1])])
      [JVal.obj [], JVal.num 1] []).1 rfl (by simp) rfl,
    (c7_amended_stage1_skips_stage4_aborts id
      (JVal.obj [("data", JVal.arr [JVal.obj [("salary", JVal.str "x")]])])
      [JVal.obj [("salary", JVal.str "x")]] []).2.1 rfl (by simp) rfl,
    (c7_amended_stage1_skips_stage4_aborts id JVal.null []
      [RawLine.obj ⟨none, emptyMeta4, none⟩]).2.2
      ⟨RawLine.obj ⟨none, emptyMeta4, none⟩, by simp, rfl⟩⟩

/- ===================================================================
   Claims C8, C9 (orchestrator preconditions and exit codes)
   =================================================================== -/

/-- C8 counterexample: with RAPIDAPI_KEY absent (and everything else in the
default state), the acquisition stage is still executed by the orchestrator
- its missing credential only prints a warning - contradicting the claim
that a stage whose required credential is absent is not run. -/
theorem c8_counterexample_acquire_runs_without_key :
    StageName.acquire ∈
      (orchestrate
        { skip1 := false, skip2 := false, skip3 := false, skip4 := false,
          continueOnError := false, forceStage1 := false }
        { rapidapiKey := false, openaiKey := true }
        { stage1Out := false, stage2OutJson := false, stage3JobsEmbed := false,
          stage3ResumeEmbed := false, stage4Top := false }
        { rc1 := 0, rc2 := 0, rc3 := 0, rc4 := 0 }).executed := by
  decide

/-- C8 amended: only the embedding stage is credential-guarded: when
OPENAI_API_KEY is absent and Stage 3 is not otherwise skipped, Stage 3 is
never executed and (under the default fail-fast policy) the pipeline halts
with a nonzero code; the acquisition stage, by contrast, is executed even
though its credential is absent. -/
theorem c8_amended_embed_guarded_acquire_not (args : OrArgs) (env : OrEnv)
    (fs : OrFS) (rcs : StageRCs)
    (hkey : env.openaiKey = false) (hs3 : args.skip3 = false)
    (hfs3 : fs.stage3JobsEmbed = false) (hce : args.continueOnError = false)
    (hs1 : args.skip1 = false) (hfs1 : fs.stage1Out = false) :
    StageName.embed ∉ (orchestrate args env fs rcs).executed ∧
    (orchestrate args env fs rcs).rc ≠ 0 ∧
    StageName.acquire ∈ (orchestrate args env fs rcs).executed := by
  rcases args with ⟨s1, s2, s3, s4, ce, f1⟩
  rcases env with ⟨rk, ok⟩
  rcases fs with ⟨f1o, f2o, f3j, f3r, f4t⟩
  simp only at hkey hs3 hfs3 hce hs1 hfs1
  subst hkey hs3 hfs3 hce hs1 hfs1
  by_cases hrc1 : rcs.rc1 = 0 <;> by_cases hrc2 : rcs.rc2 = 0 <;>
    cases s2 <;> cases f2o <;>
      simp [orchestrate, stage1_step, stage2_step, stage3_step, stage4_step,
        SKIP_IF_OUTPUT_EXISTS, hrc1, hrc2]

/-- C8 amended witness: both credentials absent, empty filesystem, default
flags, all stages would exit 0. -/
theorem c8_amended_embed_guarded_acquire_not_witness :
    StageName.embed ∉
      (orchestrate
        { skip1 := false, skip2 := false, skip3 := false, skip4 := false,
          continueOnError := false, forceStage1 := false }
        { rapidapiKey := false, openaiKey := false }
        { stage1Out := false, stage2OutJson := false, stage3JobsEmbed := false,
          stage3ResumeEmbed := false, stage4Top := false }
        { rc1 := 0, rc2 := 0, rc3 := 0, rc4 := 0 }).executed ∧
    (orchestrate
        { skip1 := false, skip2 := false, skip3 := false, skip4 := false,
          continueOnError := false, forceStage1 := false }
        { rapidapiKey := false, openaiKey := false }
        { stage1Out := false, stage2OutJson := false, stage3JobsEmbed := false,
          stage3ResumeEmbed := false, stage4Top := false }
        { rc1 := 0, rc2 := 0, rc3 := 0, rc4 := 0 }).rc ≠ 0 ∧
    StageName.acquire ∈
      (orchestrate
        { skip1 := false, skip2 := false, skip3 := false, skip4 := false,
          continueOnError := false, forceStage1 := false }
        { rapidapiKey := false, openaiKey := false }
        { stage1Out := false, stage2OutJson := false, stage3JobsEmbed := false,
          stage3ResumeEmbed := false, stage4Top := false }
        { rc1 := 0, rc2 := 0, rc3 := 0, rc4 := 0 }).executed :=
  c8_amended_embed_guarded_acquire_not _ _ _ _ rfl rfl rfl rfl rfl rfl

/-- C9 counterexample: a Stage 1 run whose POST raises a requests exception
logs the error and returns normally: the process exits with code 0 although
the stage failed (its output stage1_jobs.json was never written), so it is
not the case that every stage failure produces a nonzero exit code. -/
theorem c9_counterexample_stage1_failure_exits_zero :
    (stage1_script true id S1Outcome.requestException).exitCode = 0 ∧
    FileName.stage1Jobs ∉
      (stage1_script true id S1Outcome.requestException).written :=
  ⟨rfl, by decide⟩

/-- C9 amended: the orchestrator maps a timeout to the dedicated exit code
124, distinct from the generic failure code 1, and under the default
fail-fast policy a stage subprocess exiting nonzero makes orchestrate return
that code; but exit code 0 does not coincide with success, because Stage 1
exits 0 on all of its HANDLED failure paths (HTTP error, request exception,
missing or empty job list) - it exits 1 only on unhandled crashes (a 200
body that is not JSON, or a record whose flattening raises). -/
theorem c9_amended_exit_codes (args : OrArgs) (env : OrEnv) (fs : OrFS)
    (rcs : StageRCs) (h2t : String → String) (body : JVal) :
    run_script ProcOutcome.timedOut = 124 ∧
    run_script ProcOutcome.raised = 1 ∧
    run_script ProcOutcome.timedOut ≠ run_script ProcOutcome.raised ∧
    (stage1_main h2t S1Outcome.httpError).exitCode = 0 ∧
    (stage1_main h2t S1Outcome.requestException).exitCode = 0 ∧
    (find_jobs body = none →
      (stage1_main h2t (S1Outcome.okResponse body)).exitCode = 0) ∧
    (find_jobs body = some [] →
      (stage1_main h2t (S1Outcome.okResponse body)).exitCode = 0) ∧
    (stage1_main h2t S1Outcome.okNotJson).exitCode = 1 ∧
    (args.continueOnError = false → args.skip1 = false →
      fs.stage1Out = false → rcs.rc1 ≠ 0 →
      orchestrate args env fs rcs =
        { executed := [StageName.acquire], rc := rcs.rc1 }) := by
  refine ⟨rfl, rfl, by decide, rfl, rfl, ?_, ?_, rfl, ?_⟩
  · intro hfj
    simp [stage1_main, hfj]
  · intro hfj
    simp [stage1_main, hfj]
  · intro hce hs1 hf1 hrc
    rcases args with ⟨s1, s2, s3, s4, ce, f1⟩
    rcases fs with ⟨f1o, f2o, f3j, f3r, f4t⟩
    simp only at hce hs1 hf1
    subst hce hs1 hf1
    simp [orchestrate, stage1_step, SKIP_IF_OUTPUT_EXISTS, hrc]
